import Mathlib

/-! Verification of the library catalog manager (`src/main.py`).

The program keeps an in-memory list of `Book` objects (`Library.books`) and a
JSON file (`library.json`) holding the serialized records.  We shallowly embed
this state as `LibState`: the field `books` is the in-memory list, the field
`file` is the parsed content of the persisted JSON file (a list of records,
i.e. the dictionaries produced by `Book.to_dict`).  The JSON text layer itself
round-trips exactly and is not modelled; every operation below mirrors a
method of the Python `Library` class line by line.
-/

/-- The Python `Book.__init__` default: `status: str = "в наличии"` (Available). -/
def defaultStatus : String := "в наличии"

/-- The second legal status value in `Library.update_status`: `"выдана"` (CheckedOut). -/
def checkedOutStatus : String := "выдана"

/-- One `Book` object: fields `id`, `title`, `author`, `year`, `status`
as assigned in `Book.__init__`.  Python integers are unbounded, hence `Int`. -/
structure Book where
  id : Int
  title : String
  author : String
  year : Int
  status : String
deriving DecidableEq, Repr

/-- One record of the persisted JSON array: the dictionary produced by
`Book.to_dict` (keys `id`, `title`, `author`, `year`, `status`). -/
structure BookRecord where
  id : Int
  title : String
  author : String
  year : Int
  status : String
deriving DecidableEq, Repr

/-- Embedding of `Book.to_dict`: returns the dictionary of all five fields. -/
def Book.to_dict (b : Book) : BookRecord :=
  ⟨b.id, b.title, b.author, b.year, b.status⟩

/-- The program state: the in-memory list `Library.books` and the parsed
content of the persisted file `library.json`. -/
structure LibState where
  books : List Book
  file : List BookRecord
deriving DecidableEq, Repr

/-- Embedding of `Library.save_data`: writes `[book.to_dict() for book in self.books]` to the file. -/
def save_data (s : LibState) : LibState :=
  ⟨s.books, s.books.map Book.to_dict⟩

/-- Embedding of `Library.load_data`: replaces `self.books` with
`[Book(item["id"], item["title"], item["author"], item["year"]) for item in json.load(file)]`.
The `Book` constructor is called without the `status` argument, so every
reconstructed book gets the default status `"в наличии"`. -/
def load_data (s : LibState) : LibState :=
  ⟨s.file.map (fun item => ⟨item.id, item.title, item.author, item.year, defaultStatus⟩), s.file⟩

/-- Python `max(iterable, default=d)`: the maximum of the list, or `d` when
the list is empty (used in `Library.add_book` with `default=0`). -/
def pythonMaxD (l : List Int) (d : Int) : Int :=
  match l with
  | [] => d
  | x :: xs => xs.foldl max x

/-- Embedding of `Library.add_book`: computes
`book_id = max((book.id for book in self.books), default=0) + 1`, appends
`Book(book_id, title, author, year)` (default status), calls `save_data`,
and prints the assigned id (returned here as the second component).
The method performs no validation of `title`, `author` or `year`. -/
def add_book (s : LibState) (title author : String) (year : Int) : LibState × Int :=
  let book_id := pythonMaxD (s.books.map Book.id) 0 + 1
  let new_book : Book := ⟨book_id, title, author, year, defaultStatus⟩
  (save_data ⟨s.books ++ [new_book], s.file⟩, book_id)

/-- Outcome printed by `Library.remove_book`: success or `"Книга с таким ID не найдена."`. -/
inductive RemoveOutcome where
  | removed
  | notFound
deriving DecidableEq, Repr

/-- Embedding of `Library.remove_book`: `next((book for book in self.books if book.id == book_id), None)`;
if found, `self.books.remove(book)` (removes the first matching object) and
`save_data`; otherwise prints not-found and changes nothing. -/
def remove_book (s : LibState) (book_id : Int) : LibState × RemoveOutcome :=
  match s.books.find? (fun b => b.id == book_id) with
  | some book => (save_data ⟨s.books.erase book, s.file⟩, RemoveOutcome.removed)
  | none => (s, RemoveOutcome.notFound)

/-- Outcome printed by `Library.update_status`: success, `"Некорректный статус."`
(invalid status value), or `"Книга не найдена."` (no book with that id). -/
inductive UpdateOutcome where
  | updated
  | invalidStatus
  | notFound
deriving DecidableEq, Repr

/-- Mutation `book.status = status` performed on the first book whose id matches
(the object returned by `next(...)` in `Library.update_status`). -/
def setStatusFirst (books : List Book) (book_id : Int) (status : String) : List Book :=
  match books with
  | [] => []
  | b :: rest =>
    if b.id == book_id then ⟨b.id, b.title, b.author, b.year, status⟩ :: rest
    else b :: setStatusFirst rest book_id status

/-- Embedding of `Library.update_status`: finds the first book with the given id; if none,
prints not-found (no mutation).  If found and
`status in ["в наличии", "выдана"]`, sets the status and calls `save_data`;
otherwise prints invalid-status (no mutation, no save). -/
def update_status (s : LibState) (book_id : Int) (status : String) : LibState × UpdateOutcome :=
  match s.books.find? (fun b => b.id == book_id) with
  | some _ =>
    if status = defaultStatus ∨ status = checkedOutStatus then
      (save_data ⟨setStatusFirst s.books book_id status, s.file⟩, UpdateOutcome.updated)
    else (s, UpdateOutcome.invalidStatus)
  | none => (s, UpdateOutcome.notFound)

/-- Python character lowering as used by `str.lower()`, folding ASCII letters
via `Char.toLower`.  Python lowercases full Unicode (Cyrillic В becomes в);
the program's own data is unaffected (both status labels are already
lowercase) and the case-insensitivity statements below involve ASCII only, so
the embedding is exact on every string the theorems evaluate, though not on
arbitrary non-ASCII queries. -/
def pyLower (t : String) : String :=
  ⟨t.data.map Char.toLower⟩

/-- Embedding of `str(getattr(book, field, ""))`: dynamic attribute lookup on a `Book`.
Exact on the five data attributes, and on every name that is not an attribute
of a `Book` instance at all, where `getattr` falls back to the default `""`.
The remaining attribute names — the method `to_dict` and the object dunder
attributes, see `mayBeBookAttr` — are mapped to `""` as well, although in
Python their `str()` is a non-empty repr embedding a runtime address; a
theorem that depends on the field text therefore keeps the field name inside
the exact domain.  The empty-query property is the exception: it holds for
every field name alike, because the empty string is a substring of any
attribute text, method repr, or `""` default. -/
def fieldStr (b : Book) (field : String) : String :=
  if field = "id" then toString b.id
  else if field = "title" then b.title
  else if field = "author" then b.author
  else if field = "year" then toString b.year
  else if field = "status" then b.status
  else ""

/-- Python list (char) containment test `needle in hay` for `startsWith`:
does `hay` start with `needle`? -/
def startsWith : List Char → List Char → Bool
  | [], _ => true
  | _ :: _, [] => false
  | a :: as, b :: bs => a == b && startsWith as bs

/-- Python substring test `needle in hay` on the character lists of the
two strings. -/
def isSubstring : List Char → List Char → Bool
  | needle, [] => needle.isEmpty
  | needle, h :: t => startsWith needle (h :: t) || isSubstring needle t

/-- Overapproximation of the names that are attributes of a `Book` instance in
the source program: the five data fields, the method `to_dict`, and every
double-underscore name (covering the object dunder attributes such as
`__dict__` and `__init__`, whichever the Python version provides).
`getattr(book, f, "")` returns the default `""` whenever this is `false`,
which is exactly where `fieldStr` is a faithful embedding for nonempty
queries. -/
def mayBeBookAttr (f : String) : Bool :=
  f == "id" || f == "title" || f == "author" || f == "year" || f == "status" ||
  f == "to_dict" || startsWith "__".data f.data

/-- Embedding of `Library.search_books`: the list comprehension
`[book for book in self.books if query.lower() in str(getattr(book, field, "")).lower()]`.
Returns the matches (what the method prints, one per line); no state change. -/
def search_books (s : LibState) (query field : String) : List Book :=
  s.books.filter (fun b => isSubstring (pyLower query).data (pyLower (fieldStr b field)).data)

/-- Embedding of `Library.display_books`: prints every book's `to_dict()` in order
(or an emptiness message); no state change. -/
def display_books (s : LibState) : List BookRecord :=
  s.books.map Book.to_dict

/-- One menu-level operation of the `Library` class, as a relation between the
state before and after.  `search` and `listAll` read but never mutate. -/
inductive Step : LibState → LibState → Prop where
  | add (s : LibState) (title author : String) (year : Int) :
      Step s (add_book s title author year).1
  | remove (s : LibState) (book_id : Int) :
      Step s (remove_book s book_id).1
  | update (s : LibState) (book_id : Int) (status : String) :
      Step s (update_status s book_id status).1
  | search (s : LibState) (query field : String) : Step s s
  | listAll (s : LibState) : Step s s

/-- States reachable from a catalog with pairwise-distinct ids (in particular
from the empty catalog) by any sequence of operations. -/
inductive Reachable : LibState → Prop where
  | start (s : LibState) : (s.books.map Book.id).Nodup → Reachable s
  | step (s s' : LibState) : Reachable s → Step s s' → Reachable s'

/-- Example book used in concrete instances: checked out before saving. -/
def duneCheckedOut : Book := ⟨1, "Dune", "Frank Herbert", 1965, checkedOutStatus⟩

/-- Example book with the default status. -/
def duneAvailable : Book := ⟨1, "Dune", "Frank Herbert", 1965, defaultStatus⟩

/-- Example catalog with ids 1, 2, 3. -/
def threeBooks : LibState :=
  ⟨[⟨1, "A", "AA", 1901, defaultStatus⟩, ⟨2, "B", "BB", 1902, defaultStatus⟩,
    ⟨3, "C", "CC", 1903, defaultStatus⟩], []⟩

/-- Example record whose author is "John Smith". -/
def smithBook : Book := ⟨1, "Some Title", "John Smith", 2000, defaultStatus⟩

/-- The state after `n` successive `add_book` calls starting from the empty
catalog (titles, authors and years supplied by arbitrary streams). -/
def addSeq (t a : Nat → String) (y : Nat → Int) : Nat → LibState
  | 0 => ⟨[], []⟩
  | n + 1 => (add_book (addSeq t a y n) (t n) (a n) (y n)).1

/-- The id list `[1, 2, …, n]` (as integers). -/
def idsUpTo (n : Nat) : List Int :=
  (List.range n).map (fun i : Nat => (i : Int) + 1)

/-! Helper lemmas -/

/-- The empty word starts every word, so `isSubstring [] hay` is always true
(Python: `"" in t` holds for every `t`). -/
theorem isSubstring_nil_left : ∀ hay : List Char, isSubstring [] hay = true
  | [] => rfl
  | _ :: t => by simp [isSubstring, startsWith, isSubstring_nil_left t]

/-- A nonempty word is not a substring of the empty word. -/
theorem isSubstring_nil_right (c : Char) (cs : List Char) :
    isSubstring (c :: cs) [] = false := rfl

/-- Lemma: `startsWith` agrees with the prefix relation on lists. -/
theorem startsWith_iff : ∀ n h : List Char, startsWith n h = true ↔ n <+: h
  | [], h => by simp [startsWith]
  | _ :: _, [] => by simp [startsWith]
  | a :: as, b :: bs => by
    rw [startsWith, Bool.and_eq_true, beq_iff_eq, startsWith_iff as bs,
      List.cons_prefix_cons]

/-- Lemma: `isSubstring` agrees with the infix (contiguous substring) relation. -/
theorem isSubstring_iff (n : List Char) : ∀ h : List Char, isSubstring n h = true ↔ n <:+: h
  | [] => by
    cases n with
    | nil => simp [isSubstring]
    | cons c cs => simp [isSubstring]
  | b :: bs => by
    rw [isSubstring, Bool.or_eq_true, startsWith_iff, isSubstring_iff n bs,
      List.infix_cons_iff]

/-- Appending one nonnegative element on the right: Python's
`max(_, default=0)` distributes as an ordinary `max`. -/
theorem pythonMaxD_append_one (l : List Int) (x : Int) (hx : 0 ≤ x) :
    pythonMaxD (l ++ [x]) 0 = max (pythonMaxD l 0) x := by
  cases l with
  | nil => simp [pythonMaxD, max_eq_right hx]
  | cons h t => simp [pythonMaxD, List.foldl_append]

/-- Lemma: `pythonMaxD l d` equals the optional list maximum with default `d`. -/
theorem pythonMaxD_eq_listMax (l : List Int) (d : Int) :
    pythonMaxD l d = (l.max?.getD d) := by
  cases l <;> rfl

/-- The seed of a left `max` fold is bounded by the fold. -/
theorem foldl_max_init_le (t : List Int) : ∀ a : Int, a ≤ t.foldl max a := by
  induction t with
  | nil => intro a; exact le_refl a
  | cons y ys ih =>
    intro a
    rw [List.foldl_cons]
    exact le_trans (le_max_left a y) (ih (max a y))

/-- Every member of the list is bounded by a left `max` fold over it. -/
theorem le_foldl_max_of_mem (t : List Int) : ∀ a x : Int, x ∈ t → x ≤ t.foldl max a := by
  induction t with
  | nil => intro a x hx; cases hx
  | cons y ys ih =>
    intro a x hx
    rw [List.foldl_cons]
    rcases List.mem_cons.mp hx with h | h
    · subst h
      exact le_trans (le_max_right a x) (foldl_max_init_le ys (max a x))
    · exact ih (max a y) x h

/-- Every member of a list is bounded by its Python maximum. -/
theorem le_pythonMaxD (l : List Int) (x : Int) (hx : x ∈ l) : x ≤ pythonMaxD l 0 := by
  cases l with
  | nil => cases hx
  | cons h t =>
    rcases List.mem_cons.mp hx with h' | h'
    · exact h' ▸ foldl_max_init_le t h
    · exact le_foldl_max_of_mem t h x h'

/-- Lemma: `idsUpTo` unfolds one step at the top. -/
theorem idsUpTo_succ (n : Nat) : idsUpTo (n + 1) = idsUpTo n ++ [(n : Int) + 1] := by
  unfold idsUpTo
  rw [List.range_succ, List.map_append]
  rfl

/-- The Python maximum of the id list `[1, …, n]`. -/
theorem pythonMaxD_range (n : Nat) : pythonMaxD (idsUpTo n) 0 = n := by
  induction n with
  | zero => rfl
  | succ m ih =>
    rw [idsUpTo_succ, pythonMaxD_append_one _ _ (by positivity), ih]
    omega

/-- Setting the status of the first matching book leaves the id list unchanged. -/
theorem setStatusFirst_map_id :
    ∀ (books : List Book) (i : Int) (st : String),
      (setStatusFirst books i st).map Book.id = books.map Book.id
  | [], _, _ => rfl
  | b :: rest, i, st => by
    by_cases hb : b.id == i <;>
      simp [setStatusFirst, hb, setStatusFirst_map_id rest i st]

/-! Claims about the program -/

/-- C1: the claimed Save/Load round trip fails on the code.  For the
one-book catalog whose book is checked out, `load_data` after `save_data`
yields a collection whose status field has been reset to the default, so it
differs from the collection before `save_data`. -/
theorem c1_roundtrip_drops_status :
    (load_data (save_data ⟨[duneCheckedOut], []⟩)).books ≠ [duneCheckedOut] ∧
    (load_data (save_data ⟨[duneCheckedOut], []⟩)).books =
      [⟨1, "Dune", "Frank Herbert", 1965, defaultStatus⟩] := by
  constructor <;> decide

/-- C2: `load_data` rebuilds every book from the persisted `id`, `title`,
`author` and `year` only; the status of every loaded record is the default
`"в наличии"` regardless of the status stored in the file. -/
theorem c2_load_always_defaults_status (s : LibState) :
    ((load_data s).books).map Book.status = s.file.map (fun _ => defaultStatus) ∧
    ((load_data s).books).map Book.id = s.file.map BookRecord.id ∧
    ((load_data s).books).map Book.title = s.file.map BookRecord.title ∧
    ((load_data s).books).map Book.author = s.file.map BookRecord.author ∧
    ((load_data s).books).map Book.year = s.file.map BookRecord.year := by
  refine ⟨?_, ?_, ?_, ?_, ?_⟩ <;> simp [load_data, Function.comp_def]

/-- C7: `add_book` performs no validation.  Called with an empty title, an
empty author (and any year) it appends the invalid record and persists it to
the file, contradicting the claimed `InvalidInput` failure. -/
theorem c7_add_persists_invalid_record :
    (add_book ⟨[], []⟩ "" "" 1900).1.books = [⟨1, "", "", 1900, defaultStatus⟩] ∧
    (add_book ⟨[], []⟩ "" "" 1900).1.file = [⟨1, "", "", 1900, defaultStatus⟩] := by
  constructor <;> rfl

/-- C10: searching with the empty query matches every record, for every field
name whatsoever: a missing attribute is read as `""` and the empty string is a
substring of every string. -/
theorem c10_empty_query_matches_all (s : LibState) (field : String) :
    search_books s "" field = s.books := by
  rw [search_books]
  apply List.filter_eq_self.mpr
  intro b _
  show isSubstring (pyLower "").data (pyLower (fieldStr b field)).data = true
  rw [show (pyLower "").data = ([] : List Char) from rfl]
  exact isSubstring_nil_left _

/-- Shape of the in-memory list after `add_book`. -/
theorem add_book_books (s : LibState) (title author : String) (year : Int) :
    (add_book s title author year).1.books =
      s.books ++
        [⟨pythonMaxD (s.books.map Book.id) 0 + 1, title, author, year, defaultStatus⟩] := rfl

/-- After `n` Adds from the empty catalog the id column is exactly `[1, …, n]`. -/
theorem addSeq_ids (t a : Nat → String) (y : Nat → Int) :
    ∀ n : Nat, ((addSeq t a y n).books).map Book.id = idsUpTo n := by
  intro n
  induction n with
  | zero => rfl
  | succ m ih =>
    show ((add_book (addSeq t a y m) (t m) (a m) (y m)).1.books).map Book.id = idsUpTo (m + 1)
    rw [add_book_books, List.map_append, ih, idsUpTo_succ]
    show idsUpTo m ++ [pythonMaxD (idsUpTo m) 0 + 1] = idsUpTo m ++ [(m : Int) + 1]
    rw [pythonMaxD_range]

/-- C3: `add_book` assigns the id `max(existing ids, default 0) + 1` (stated via
the independent `List.max?`); `n` Adds from the empty catalog assign ids
`1, …, n` in order; and on the catalog with ids `{1, 2, 3}`, removing id 3 and
adding again reuses id 3. -/
theorem c3_add_id_assignment (s : LibState) (title author : String) (year : Int)
    (t a : Nat → String) (y : Nat → Int) (n : Nat) :
    (add_book s title author year).2 = (s.books.map Book.id).max?.getD 0 + 1 ∧
    ((addSeq t a y n).books).map Book.id = idsUpTo n ∧
    (add_book (remove_book threeBooks 3).1 "D" "DD" 1904).2 = 3 := by
  refine ⟨?_, addSeq_ids t a y n, by decide⟩
  rw [show (add_book s title author year).2 = pythonMaxD (s.books.map Book.id) 0 + 1 from rfl,
    pythonMaxD_eq_listMax]

/-- C5 counterexample: with an id that matches no record, `update_status` on an
invalid status value reports not-found, not invalid-input, so the claim's
"for every catalog and every id … fails with InvalidInput" is false as stated. -/
theorem c5_counterexample :
    (update_status ⟨[], []⟩ 1 "borrowed-invalid-value").2 ≠ UpdateOutcome.invalidStatus ∧
    (update_status ⟨[], []⟩ 1 "borrowed-invalid-value").2 = UpdateOutcome.notFound := by
  constructor <;> decide

/-- C5 (amended): for every catalog and id, `update_status` with a status value
outside the two defined ones performs no mutation and persists nothing (the
state, file included, is unchanged), and its outcome is exactly determined:
invalid-input when the id matches some record, not-found when it matches
none. -/
theorem c5_invalid_status_no_mutation (s : LibState) (i : Int) (st : String)
    (h1 : st ≠ defaultStatus) (h2 : st ≠ checkedOutStatus) :
    (update_status s i st).1 = s ∧
    (update_status s i st).2 =
      (if (s.books.find? (fun b => b.id == i)).isSome = true then
        UpdateOutcome.invalidStatus
      else UpdateOutcome.notFound) := by
  unfold update_status
  cases hf : s.books.find? (fun b => b.id == i) with
  | none => simp
  | some b => simp [h1, h2]

/-- Witness for C5: a concrete catalog holding the book with id 1; the invalid
status value "borrowed-invalid-value" leaves the state unchanged and the
outcome is invalid-input because id 1 exists. -/
theorem c5_witness :
    (update_status ⟨[duneAvailable], []⟩ 1 "borrowed-invalid-value").1 =
      ⟨[duneAvailable], []⟩ ∧
    (update_status ⟨[duneAvailable], []⟩ 1 "borrowed-invalid-value").2 =
      (if (([duneAvailable] : List Book).find? (fun b => b.id == 1)).isSome = true then
        UpdateOutcome.invalidStatus
      else UpdateOutcome.notFound) :=
  c5_invalid_status_no_mutation ⟨[duneAvailable], []⟩ 1 "borrowed-invalid-value"
    (by decide) (by decide)

/-- C6: when no record has the given id, `remove_book` reports not-found and
returns the state unchanged — in-memory list and persisted file alike, since no
save is performed. -/
theorem c6_remove_absent_id_no_change (s : LibState) (i : Int)
    (h : ∀ b ∈ s.books, b.id ≠ i) :
    remove_book s i = (s, RemoveOutcome.notFound) := by
  unfold remove_book
  rw [List.find?_eq_none.mpr (by simpa using h)]

/-- Witness for C6: removing id 999 from the one-book catalog (id 1) reports
not-found and changes nothing. -/
theorem c6_witness :
    remove_book ⟨[duneAvailable], []⟩ 999 = (⟨[duneAvailable], []⟩, RemoveOutcome.notFound) :=
  c6_remove_absent_id_no_change ⟨[duneAvailable], []⟩ 999 (by decide)

/-- C8: `search_books` returns a subsequence of the catalog (matches in catalog
order); a book is returned exactly when the lowercased query is a contiguous
substring of the lowercased textual value of the named field; and
Search("SMITH", "author") matches any record whose author is "John Smith". -/
theorem c8_search_case_insensitive_substring (s : LibState) (q f : String) (b : Book)
    (hb : b ∈ s.books) :
    (search_books s q f).Sublist s.books ∧
    (b ∈ search_books s q f ↔ (pyLower q).data <:+: (pyLower (fieldStr b f)).data) ∧
    (∀ bk : Book, bk.author = "John Smith" → bk ∈ search_books ⟨[bk], []⟩ "SMITH" "author") := by
  refine ⟨List.filter_sublist _, ?_, ?_⟩
  · rw [search_books, List.mem_filter, isSubstring_iff]
    simp [hb]
  · intro bk hbk
    rw [search_books, List.mem_filter]
    refine ⟨List.mem_singleton_self bk, ?_⟩
    show isSubstring (pyLower "SMITH").data (pyLower (fieldStr bk "author")).data = true
    rw [show fieldStr bk "author" = bk.author from rfl, hbk]
    decide

/-- Witness for C8: the concrete record `smithBook` (author "John Smith") is
found by Search("SMITH", "author"). -/
theorem c8_witness :
    smithBook ∈ search_books ⟨[smithBook], []⟩ "SMITH" "author" :=
  (c8_search_case_insensitive_substring ⟨[smithBook], []⟩ "SMITH" "author" smithBook
    (by decide)).2.2 smithBook rfl

/-- C9 counterexample: with the empty query, searching an unsupported field
name ("publisher") returns the whole catalog, not the empty sequence, so the
claim quantified over every query is false. -/
theorem c9_counterexample :
    search_books ⟨[duneAvailable], []⟩ "" "publisher" ≠ [] ∧
    search_books ⟨[duneAvailable], []⟩ "" "publisher" = [duneAvailable] := by
  constructor <;> decide

/-- C9 (amended): for every nonempty query, searching a field name that is not
an attribute of a `Book` instance (no data field, not `to_dict`, no
double-underscore name — see `mayBeBookAttr`) returns the empty sequence
rather than an error; the empty query is the exception, where everything
matches. -/
theorem c9_unknown_field_returns_empty (s : LibState) (q f : String)
    (hq : q ≠ "") (hf : mayBeBookAttr f = false) :
    search_books s q f = [] := by
  have h1 : f ≠ "id" := by rintro rfl; simp [mayBeBookAttr] at hf
  have h2 : f ≠ "title" := by rintro rfl; simp [mayBeBookAttr] at hf
  have h3 : f ≠ "author" := by rintro rfl; simp [mayBeBookAttr] at hf
  have h4 : f ≠ "year" := by rintro rfl; simp [mayBeBookAttr] at hf
  have h5 : f ≠ "status" := by rintro rfl; simp [mayBeBookAttr] at hf
  rw [search_books]
  apply List.filter_eq_nil_iff.mpr
  intro b _
  rw [show fieldStr b f = "" from by simp [fieldStr, h1, h2, h3, h4, h5]]
  have hq' : (pyLower q).data ≠ [] := by
    obtain ⟨l⟩ := q
    cases l with
    | nil => exact absurd (by decide) hq
    | cons c cs => simp [pyLower]
  rw [show (pyLower "").data = ([] : List Char) from rfl]
  cases hd : (pyLower q).data with
  | nil => exact absurd hd hq'
  | cons c cs => simp [isSubstring]

/-- Witness for C9: the nonempty query "x" on "publisher" — a name that is no
attribute of a `Book` at all — returns the empty sequence on the one-book
catalog. -/
theorem c9_witness :
    search_books ⟨[duneAvailable], []⟩ "x" "publisher" = [] :=
  c9_unknown_field_returns_empty ⟨[duneAvailable], []⟩ "x" "publisher"
    (by decide) (by decide)

/-- C4: id uniqueness is an invariant.  In every state reachable from a
catalog with pairwise-distinct ids (in particular the empty catalog) by any
sequence of Add, Remove, Search, ListAll and UpdateStatus operations, no two
records share an id. -/
theorem c4_reachable_ids_nodup (s : LibState) (h : Reachable s) :
    (s.books.map Book.id).Nodup := by
  induction h with
  | start s0 hs => exact hs
  | step s0 s1 hr hstep ih =>
    cases hstep with
    | add title author year =>
      rw [add_book_books, List.map_append]
      rw [List.nodup_append]
      refine ⟨ih, by simp, ?_⟩
      intro x hx hx'
      simp only [List.map_cons, List.map_nil, List.mem_singleton] at hx'
      have hle := le_pythonMaxD _ x hx
      omega
    | remove i =>
      unfold remove_book
      cases hfind : s0.books.find? (fun b => b.id == i) with
      | none => exact ih
      | some bk =>
        exact List.Nodup.sublist (List.Sublist.map _ (List.erase_sublist _ _)) ih
    | update i st =>
      unfold update_status
      cases hfind : s0.books.find? (fun b => b.id == i) with
      | none => exact ih
      | some bk =>
        by_cases hst : st = defaultStatus ∨ st = checkedOutStatus
        · rw [if_pos hst]
          show ((setStatusFirst s0.books i st).map Book.id).Nodup
          rw [setStatusFirst_map_id]
          exact ih
        · rw [if_neg hst]
          exact ih
    | search q f => exact ih
    | listAll => exact ih

/-- Witness for C4: the state reached from the empty catalog by one Add has
pairwise-distinct ids. -/
theorem c4_witness :
    (((add_book ⟨[], []⟩ "Dune" "Frank Herbert" 1965).1).books.map Book.id).Nodup :=
  c4_reachable_ids_nodup _
    (Reachable.step _ _ (Reachable.start _ (by simp))
      (Step.add _ "Dune" "Frank Herbert" 1965))
